import Mathlib

/-!
Verification development for the ebp2docs EmpirBus project viewer.

The JavaScript sources are shallowly embedded here:
* `src/js/enums.js` : the `N2kDirection` enumeration,
* `src/js/channel-decoder.js` : the channel-settings decoder and its tables,
* `src/js/component-decoder.js` : the component decoder registry,
* `src/js/parser.js` : document extraction (`parseUnits`, `validateEBP`,
  `parseMemory`, `findMasterModuleBusId`, `parseProperties`) and the
  component sort comparator.

JavaScript numbers appearing in this code are integers, embedded as `Int`;
`parseInt` failure (NaN) is embedded as `Option.none`, and the JS idiom
`parseInt(x) || d` (which replaces both NaN and 0 by `d`) is `jsOrInt`.
XML documents are embedded as element trees (`XmlNode`), built mutually with
`XmlForest` so that every extraction function is structurally recursive and
kernel-reducible.
-/

/-- Model of the JavaScript `parseInt(s)` call (radix auto-detected):
skip leading whitespace, read an optional sign, then either a `0x`/`0X`
hexadecimal prefix or a longest run of decimal digits; `none` models NaN. -/
def jsParseIntStr (s : String) : Option Int :=
  let cs := s.toList.dropWhile Char.isWhitespace
  let signed : Int × List Char :=
    match cs with
    | '-' :: rest => (-1, rest)
    | '+' :: rest => (1, rest)
    | _ => (1, cs)
  let digits : List Char → Option Nat := fun l =>
    let ds := l.takeWhile Char.isDigit
    if ds.isEmpty then none
    else some (ds.foldl (fun acc c => acc * 10 + (c.toNat - 48)) 0)
  let hexDigit : Char → Bool := fun c =>
    c.isDigit || ('a' ≤ c && c ≤ 'f') || ('A' ≤ c && c ≤ 'F')
  let hexVal : Char → Nat := fun c =>
    if c.isDigit then c.toNat - 48
    else if 'a' ≤ c && c ≤ 'f' then c.toNat - 87
    else c.toNat - 55
  let hex : List Char → Option Nat := fun l =>
    let ds := l.takeWhile hexDigit
    if ds.isEmpty then none
    else some (ds.foldl (fun acc c => acc * 16 + hexVal c) 0)
  match signed.2 with
  | '0' :: x :: rest =>
    if x = 'x' ∨ x = 'X' then (hex rest).map (fun n => signed.1 * n)
    else (digits signed.2).map (fun n => signed.1 * n)
  | _ => (digits signed.2).map (fun n => signed.1 * n)

/-- The JS idiom `parseInt(x) || d`: NaN and 0 are falsy, so both give `d`. -/
def jsOrInt (o : Option Int) (d : Int) : Int :=
  match o with
  | none => d
  | some v => if v = 0 then d else v

/-- The JS idiom `s || d` on an optional string attribute: a missing
attribute (`null`) and the empty string are falsy, so both give `d`. -/
def jsOrStr (o : Option String) (d : String) : String :=
  match o with
  | none => d
  | some s => if s = "" then d else s

/-- `src/js/enums.js` — the NMEA 2000 direction enumeration `N2kDirection`. -/
inductive N2kDirection where
  | NONE
  | TRANSMIT
  | RECEIVE
deriving Repr, DecidableEq

/-- `N2kDirection.fromId`: 0 maps to TRANSMIT, 1 to RECEIVE, anything else
(including a `null` argument, embedded as `none`) to NONE. -/
def N2kDirection.fromId (id : Option Int) : N2kDirection :=
  match id with
  | some 0 => .TRANSMIT
  | some 1 => .RECEIVE
  | _ => .NONE

/-- The `name` field of an `N2kDirection` value. -/
def N2kDirection.name : N2kDirection → String
  | .NONE => ""
  | .TRANSMIT => "transmit"
  | .RECEIVE => "receive"

/-- One entry of `INPUT_MAIN_SETTINGS` / `OUTPUT_MAIN_SETTINGS` in
`src/js/channel-decoder.js`: a category string plus either a fixed
`subtype` or a numeric `subtypeMap` (every table string is non-empty, so
the JS truthiness tests on them coincide with `Option` matching). -/
structure ChannelConfig where
  type : String
  subtype : Option String
  subtypeMap : List (Int × String)
deriving Repr, DecidableEq

/-- The decoded `{type, subtype}` pair for one side of a channel. -/
structure ChannelSetting where
  type : String
  subtype : String
deriving Repr, DecidableEq

/-- `INPUT_MAIN_SETTINGS` from `src/js/channel-decoder.js`. -/
def INPUT_MAIN_SETTINGS : List (Int × ChannelConfig) :=
  [ (1, { type := "digital input", subtype := some "standard", subtypeMap := [] }),
    (57, { type := "digital input", subtype := none,
           subtypeMap := [(1, "closes to minus"), (2, "closes to plus"),
                          (4, "closes to common"), (6, "closes to plus weak pulldown"),
                          (7, "measure input frequency")] }),
    (64, { type := "analog input", subtype := none,
           subtypeMap := [(1, "voltage signal"), (2, "4-20 mA"), (4, "0-1500 Ohm"),
                          (5, "multiswitch"), (6, "firealarm (constant power)"),
                          (7, "multiswitch (68Ohm +/- 1%)"), (8, "dual fixed multiswitch"),
                          (9, "temp sensor ohm")] }),
    (54, { type := "window wiper feedback", subtype := none,
           subtypeMap := [(1, "closes to minus in parking"), (2, "open in parking")] }) ]

/-- `OUTPUT_MAIN_SETTINGS` from `src/js/channel-decoder.js`. -/
def OUTPUT_MAIN_SETTINGS : List (Int × ChannelConfig) :=
  [ (1, { type := "digital output", subtype := some "standard", subtypeMap := [] }),
    (48, { type := "digital output +", subtype := none,
           subtypeMap := [(1, "normal"), (2, "open load detection"),
                          (3, "open load detection at turn on")] }),
    (49, { type := "digital output -", subtype := none, subtypeMap := [(1, "normal")] }),
    (52, { type := "commonline", subtype := none, subtypeMap := [(0, "normal")] }),
    (53, { type := "half bridge output +/-", subtype := none,
           subtypeMap := [(0, "normal half bridge")] }),
    (55, { type := "window wiper", subtype := none,
           subtypeMap := [(1, "connection #1 with diode"), (2, "connection #1 no diode"),
                          (3, "connection #2 with diode"), (4, "connection #2 no diode")] }),
    (65, { type := "signal drive (max 50mA)", subtype := none,
           subtypeMap := [(0, "positive drive"), (1, "negative drive")] }) ]

/-- `decodeInputSettings(mainId, subId)` from `src/js/channel-decoder.js`.
An unknown main code yields the pair of ":unknown:"-prefixed strings with
the offending codes appended (the template literals in the source). -/
def decodeInputSettings (mainId subId : Int) : ChannelSetting :=
  match INPUT_MAIN_SETTINGS.lookup mainId with
  | none => { type := ":unknown:" ++ toString mainId, subtype := ":unknown:" ++ toString subId }
  | some config =>
    match config.subtype with
    | some fixed => { type := config.type, subtype := fixed }
    | none =>
      match config.subtypeMap.lookup subId with
      | some sub => { type := config.type, subtype := sub }
      | none => { type := config.type, subtype := ":unknown:" ++ toString subId }

/-- `decodeOutputSettings(mainId, subId)` from `src/js/channel-decoder.js`:
identical to the input side except a main code of exactly -1 returns the
`{type: ":unknown:", subtype: ":unknown:"}` sentinel before table lookup. -/
def decodeOutputSettings (mainId subId : Int) : ChannelSetting :=
  if mainId = -1 then { type := ":unknown:", subtype := ":unknown:" }
  else
    match OUTPUT_MAIN_SETTINGS.lookup mainId with
    | none => { type := ":unknown:" ++ toString mainId, subtype := ":unknown:" ++ toString subId }
    | some config =>
      match config.subtype with
      | some fixed => { type := config.type, subtype := fixed }
      | none =>
        match config.subtypeMap.lookup subId with
        | some sub => { type := config.type, subtype := sub }
        | none => { type := config.type, subtype := ":unknown:" ++ toString subId }

/-- A channel record as built by `parseChannels` in `src/js/parser.js`:
every field is a string, with `"N/A"` defaults for number/name/direction and
`""` defaults for the four setting codes. -/
structure Channel where
  number : String
  name : String
  direction : String
  inMainChannelSettingId : String
  inChannelSettingId : String
  outMainChannelSettingId : String
  outChannelSettingId : String
deriving Repr, DecidableEq

/-- The `{input, output}` result of `decodeChannelSettings`. -/
structure DecodedChannelSettings where
  input : ChannelSetting
  output : ChannelSetting
deriving Repr, DecidableEq

/-- `decodeChannelSettings(channel)` from `src/js/channel-decoder.js`:
`parseInt(...) || 0` for the two input codes, `parseInt(...) || -1` for the
two output codes, then decode each side. -/
def decodeChannelSettings (channel : Channel) : DecodedChannelSettings :=
  let mainInId := jsOrInt (jsParseIntStr channel.inMainChannelSettingId) 0
  let subInId := jsOrInt (jsParseIntStr channel.inChannelSettingId) 0
  let mainOutId := jsOrInt (jsParseIntStr channel.outMainChannelSettingId) (-1)
  let subOutId := jsOrInt (jsParseIntStr channel.outChannelSettingId) (-1)
  { input := decodeInputSettings mainInId subInId,
    output := decodeOutputSettings mainOutId subOutId }

/-- A property object as consumed by `decodeComponent` in
`src/js/component-decoder.js`: a numeric id and a raw string value. -/
structure ComponentProperty where
  id : Int
  value : String
deriving Repr, DecidableEq

/-- The decoded component record of `src/js/component-decoder.js`.
`pgn` and `id` are optional because a negative table index in JS produces
`undefined` (embedded as `none`); `none` in `instance` and `device` embeds
the explicit `null` of the source. -/
structure DecodedComponent where
  name : String
  pgn : Option Int
  «instance» : Option Int
  id : Option String
  direction : N2kDirection
  device : Option Int
deriving Repr, DecidableEq

/-- `FLUID_TYPES` from `src/js/component-decoder.js`. -/
def FLUID_TYPES : List String :=
  ["fuel", "fresh water", "waste water", "live well", "oil", "black water"]

/-- `TEMPERATURE_SOURCES` from `src/js/component-decoder.js`. -/
def TEMPERATURE_SOURCES : List String :=
  ["sea", "outside", "inside", "engine room", "main cabin", "live well",
   "bait well", "refridgeration", "heating system", "dew point",
   "wind chill apparent", "wind chill theoretical", "heat index", "freezer"]

/-- `J1939_PGNS` from `src/js/component-decoder.js`. -/
def J1939_PGNS : List Int :=
  [65014, 65027, 65011, 65008, 65024, 65021, 65017, 65030,
   65004, 65003, 65002, 65001]

/-- JS array indexing `l[i]`: out-of-range (including negative) gives
`undefined`, embedded as `none`. -/
def jsIndex {α : Type} (l : List α) (i : Int) : Option α :=
  if i < 0 then none else l[i.toNat]?

/-- `createPropertyMap(properties)`: each property's value is run through
`parseInt`, with NaN stored as `null`; `Map.set` makes later occurrences of
the same id win, which `jsMapGet` reproduces by searching the reversed list. -/
def createPropertyMap (properties : List ComponentProperty) : List (Int × Option Int) :=
  properties.map (fun prop => (prop.id, jsParseIntStr prop.value))

/-- `Map.get(id)` over an insertion list: the last binding of `id` wins;
a missing key gives `undefined`, embedded as `none`. -/
def jsMapGet (m : List (Int × Option Int)) (id : Int) : Option (Option Int) :=
  (m.reverse.find? (fun e => e.1 = id)).map (fun e => e.2)

/-- `getProperty(props, id)`: `props.get(id) ?? null` — both a missing key
(`undefined`) and a stored `null` come out as `none`. -/
def getProperty (props : List (Int × Option Int)) (id : Int) : Option Int :=
  match jsMapGet props id with
  | none => none
  | some v => v

/-- `createEmptyResult()` from `src/js/component-decoder.js`. -/
def createEmptyResult : DecodedComponent :=
  { name := "", pgn := some 0, «instance» := none, id := some "",
    direction := .NONE, device := none }

/-- `decodeFluidLevel` (component 1283): fluid name from `FLUID_TYPES` when
`fluidType !== null && fluidType < FLUID_TYPES.length`, else "unknown"
(a negative index passes the guard and yields JS `undefined`). -/
def decodeFluidLevel (props : List (Int × Option Int)) : DecodedComponent :=
  let fluidType := getProperty props 1
  let fluidName : Option String :=
    match fluidType with
    | some v => if v < (FLUID_TYPES.length : Int) then jsIndex FLUID_TYPES v else some "unknown"
    | none => some "unknown"
  { name := "Fluid Level", pgn := some 127505, «instance» := getProperty props 0,
    id := fluidName, direction := N2kDirection.fromId (getProperty props 2),
    device := none }

/-- `decodeBinarySwitch` (component 1281): display id is the stored switch
number plus one, stringified, or the empty string when absent. -/
def decodeBinarySwitch (props : List (Int × Option Int)) : DecodedComponent :=
  let switchNumber := getProperty props 1
  { name := "Binary Switch", pgn := some 127501, «instance» := getProperty props 0,
    id := some (match switchNumber with
                | some n => toString (n + 1)
                | none => ""),
    direction := N2kDirection.fromId (getProperty props 5), device := none }

/-- `decodeBinaryIndicator` (component 1282). -/
def decodeBinaryIndicator (props : List (Int × Option Int)) : DecodedComponent :=
  let indicatorNumber := getProperty props 1
  { name := "Binary Indicator", pgn := some 127501, «instance» := getProperty props 0,
    id := some (match indicatorNumber with
                | some n => toString (n + 1)
                | none => ""),
    direction := N2kDirection.fromId (getProperty props 2), device := none }

/-- `decodeTemperature` (component 1285). -/
def decodeTemperature (props : List (Int × Option Int)) : DecodedComponent :=
  let sourceType := getProperty props 1
  let sourceName : Option String :=
    match sourceType with
    | some v => if v < (TEMPERATURE_SOURCES.length : Int) then jsIndex TEMPERATURE_SOURCES v else some "unknown"
    | none => some "unknown"
  { name := "Temperature", pgn := some 130312, «instance» := getProperty props 0,
    id := sourceName, direction := N2kDirection.fromId (getProperty props 5),
    device := none }

/-- `decodeSwitchControl` (component 1291). -/
def decodeSwitchControl (props : List (Int × Option Int)) : DecodedComponent :=
  let switchNumber := getProperty props 2
  { name := "Switch Control", pgn := some 127502, «instance» := getProperty props 1,
    id := some (match switchNumber with
                | some n => toString (n + 1)
                | none => ""),
    direction := N2kDirection.fromId (getProperty props 0), device := none }

/-- `decodeJ1939AcPgn` (component 1376): PGN from `J1939_PGNS` when
`pgnType !== null && pgnType < J1939_PGNS.length`, else 0; the unit device
id comes from property 0. -/
def decodeJ1939AcPgn (props : List (Int × Option Int)) : DecodedComponent :=
  let pgnType := getProperty props 1
  let pgn : Option Int :=
    match pgnType with
    | some v => if v < (J1939_PGNS.length : Int) then jsIndex J1939_PGNS v else some 0
    | none => some 0
  { name := "J1939 AC PGN", pgn := pgn, «instance» := none, id := some "",
    direction := .NONE, device := getProperty props 0 }

/-- `decodeProprietaryPgn` (component 1361). -/
def decodeProprietaryPgn (props : List (Int × Option Int)) : DecodedComponent :=
  { name := "Proprietary PGN", pgn := some 65280, «instance» := getProperty props 2,
    id := some "", direction := N2kDirection.fromId (getProperty props 0),
    device := none }

/-- `COMPONENT_DECODERS`: the registry mapping a component-type code to its
decode function. -/
def COMPONENT_DECODERS : List (Int × (List (Int × Option Int) → DecodedComponent)) :=
  [ (1283, decodeFluidLevel), (1281, decodeBinarySwitch),
    (1282, decodeBinaryIndicator), (1285, decodeTemperature),
    (1291, decodeSwitchControl), (1376, decodeJ1939AcPgn),
    (1361, decodeProprietaryPgn) ]

/-- `decodeComponent(component, properties)`: look the type code up in the
registry; a miss returns `createEmptyResult()`, a hit builds the property
map and runs the registered decoder. -/
def decodeComponent (componentId : Int) (properties : List ComponentProperty) : DecodedComponent :=
  match COMPONENT_DECODERS.lookup componentId with
  | none => createEmptyResult
  | some decoder => decoder (createPropertyMap properties)

mutual
/-- An XML element: tag name, attributes, child elements. Built mutually
with `XmlForest` so all tree walks below are structurally recursive. -/
inductive XmlNode where
  | mk (tag : String) (attrs : List (String × String)) (children : XmlForest)
/-- A list of sibling XML elements. -/
inductive XmlForest where
  | nil : XmlForest
  | cons (hd : XmlNode) (tl : XmlForest) : XmlForest
end

/-- The tag name of an element. -/
def XmlNode.tag : XmlNode → String
  | .mk t _ _ => t

/-- The attribute list of an element. -/
def XmlNode.attrs : XmlNode → List (String × String)
  | .mk _ a _ => a

/-- The child forest of an element. -/
def XmlNode.children : XmlNode → XmlForest
  | .mk _ _ cs => cs

/-- A child forest as a list. -/
def XmlForest.toList : XmlForest → List XmlNode
  | .nil => []
  | .cons c cs => c :: cs.toList

/-- `element.getAttribute(k)`: the attribute value, or `null` (`none`). -/
def getAttr (n : XmlNode) (k : String) : Option String :=
  (n.attrs.find? (fun a => a.1 = k)).map (fun a => a.2)

/-- `parseInt` applied to a `getAttribute` result: a missing attribute
(`null`) coerces to the string "null", which parses to NaN. -/
def jsParseIntAttr (o : Option String) : Option Int :=
  match o with
  | none => none
  | some s => jsParseIntStr s

mutual
/-- All elements of a subtree in document (pre-)order, the root included —
the search space of `document.querySelector(All)` and
`document.getElementsByTagName`. -/
def allNodes : XmlNode → List XmlNode
  | .mk t a cs => .mk t a cs :: allNodesF cs
/-- All elements of a forest in document order. -/
def allNodesF : XmlForest → List XmlNode
  | .nil => []
  | .cons c cs => allNodes c ++ allNodesF cs
end

mutual
/-- Every strict descendant of an element paired with its parent element,
in document order — the search space of a child-combinator selector. -/
def pairsUnder : XmlNode → List (XmlNode × XmlNode)
  | .mk t a cs => pairsF (.mk t a cs) cs
/-- Children of `p` (a forest) paired with `p`, then recursively below. -/
def pairsF (p : XmlNode) : XmlForest → List (XmlNode × XmlNode)
  | .nil => []
  | .cons c cs => (c, p) :: (pairsUnder c ++ pairsF p cs)
end

/-- `scope.querySelectorAll(parentTag + " > " + childTag)`: the descendants
of `scope` with tag `childTag` whose parent element has tag `parentTag`,
in document order. -/
def queryChildrenOf (scope : XmlNode) (parentTag childTag : String) : List XmlNode :=
  ((pairsUnder scope).filter (fun e => e.1.tag = childTag ∧ e.2.tag = parentTag)).map (fun e => e.1)

/-- `document.querySelector(tag)`: the first element with that tag. -/
def querySelectorTag (root : XmlNode) (t : String) : Option XmlNode :=
  (allNodes root).find? (fun n => n.tag = t)

/-- `document.querySelectorAll(tag)` / `document.getElementsByTagName(tag)`. -/
def getElementsByTagNameDoc (root : XmlNode) (t : String) : List XmlNode :=
  (allNodes root).filter (fun n => n.tag = t)

/-- `element.getElementsByTagName(tag)`: matching strict descendants. -/
def getElementsByTagNameEl (el : XmlNode) (t : String) : List XmlNode :=
  (allNodesF el.children).filter (fun n => n.tag = t)

/-- A parsed XML document: `none` models text the XML parser rejects
(DOMParser's `parsererror` document), `some root` the well-formed tree. -/
def XmlDoc : Type := Option XmlNode

/-- `parseProperties(element)` from `src/js/parser.js`: for each
`properties > property` descendant, record `parseInt(id) || -1` (so an id
attribute of "0", or one that fails to parse, is stored as -1) and
`value || ''`. -/
def parseProperties (element : XmlNode) : List ComponentProperty :=
  (queryChildrenOf element "properties" "property").map
    (fun prop =>
      { id := jsOrInt (jsParseIntAttr (getAttr prop "id")) (-1),
        value := jsOrStr (getAttr prop "value") "" })

/-- A channel group as built by `parseChannels`. -/
structure ChannelGroup where
  groupId : String
  channels : List Channel
deriving Repr, DecidableEq

/-- `parseChannels(unitElement)` from `src/js/parser.js`: every
`unitChannelGroup` descendant yields a group; every `channel` descendant of
the group yields a channel with "N/A" / "" attribute defaults. -/
def parseChannels (unitElement : XmlNode) : List ChannelGroup :=
  (getElementsByTagNameEl unitElement "unitChannelGroup").map (fun group =>
    { groupId := jsOrStr (getAttr group "channelGroupId") "N/A",
      channels := (getElementsByTagNameEl group "channel").map (fun channel =>
        { number := jsOrStr (getAttr channel "number") "N/A",
          name := jsOrStr (getAttr channel "name") "N/A",
          direction := jsOrStr (getAttr channel "direction") "N/A",
          inMainChannelSettingId := jsOrStr (getAttr channel "inMainChannelSettingId") "",
          inChannelSettingId := jsOrStr (getAttr channel "inChannelSettingId") "",
          outMainChannelSettingId := jsOrStr (getAttr channel "outMainChannelSettingId") "",
          outChannelSettingId := jsOrStr (getAttr channel "outChannelSettingId") "" }) })

/-- A unit record as built by `parseUnits`. -/
structure UnitData where
  id : String
  serial : String
  name : String
  unitTypeId : String
  standardUnitVariantNumber : String
  channels : List ChannelGroup
deriving Repr, DecidableEq

/-- `parseUnits(xmlString)` from `src/js/parser.js`: malformed XML throws;
a missing `units` container throws; only direct `unit` children of the
container are taken; an empty unit list throws. `Except.error` embeds a
thrown `Error` with its message. -/
def parseUnits (d : XmlDoc) : Except String (List UnitData) :=
  match d with
  | none => .error "Invalid XML format"
  | some root =>
    match querySelectorTag root "units" with
    | none => .error "No units container found in the EBP file"
    | some unitsContainer =>
      let unitElements := unitsContainer.children.toList.filter (fun el => el.tag = "unit")
      let units := unitElements.map (fun unit =>
        ({ id := jsOrStr (getAttr unit "id") "N/A",
           serial := jsOrStr (getAttr unit "serial") "N/A",
           name := jsOrStr (getAttr unit "name") "N/A",
           unitTypeId := jsOrStr (getAttr unit "unitTypeId") "N/A",
           standardUnitVariantNumber := jsOrStr (getAttr unit "standardUnitVariantNumber") "N/A",
           channels := parseChannels unit } : UnitData))
      if units.length = 0 then .error "No units found in the EBP file"
      else .ok units

/-- The `{isValid, errors}` result of `validateEBP`. -/
structure EBPValidation where
  isValid : Bool
  errors : List String
deriving Repr, DecidableEq

/-- `validateEBP(xmlString)` from `src/js/parser.js`: malformed XML
short-circuits; otherwise the three structural checks (project element,
units element, at least one `unit` element anywhere in the document) are
collected without throwing. -/
def validateEBP (d : XmlDoc) : EBPValidation :=
  match d with
  | none => { isValid := false, errors := ["Invalid XML format"] }
  | some root =>
    let errs1 := if (querySelectorTag root "project").isNone then ["Missing project root element"] else []
    let errs2 := if (querySelectorTag root "units").isNone then ["Missing units element"] else []
    let errs3 := if (getElementsByTagNameDoc root "unit").length = 0 then ["No units found in file"] else []
    let errors := errs1 ++ errs2 ++ errs3
    { isValid := errors.isEmpty, errors := errors }

/-- Generic insertion step of a stable comparator sort: `a` goes in front
of the first element `b` with `cmp a b <= 0`, so equal elements keep their
original relative order. -/
def jsInsert {α : Type} (cmp : α → α → Int) (a : α) : List α → List α
  | [] => [a]
  | b :: l => if cmp a b ≤ 0 then a :: b :: l else b :: jsInsert cmp a l

/-- Model of `Array.prototype.sort(cmp)`: a stable sort driven by the
comparator's sign (implemented as stable insertion sort). -/
def jsSort {α : Type} (cmp : α → α → Int) : List α → List α
  | [] => []
  | a :: l => jsInsert cmp a (jsSort cmp l)

/-- One memory-type entry of the `MEMORY_TYPES` table in `parseMemory`. -/
structure MemoryType where
  name : String
  bits : Int
deriving Repr, DecidableEq

/-- The `MEMORY_TYPES` table from `parseMemory` in `src/js/parser.js`. -/
def MEMORY_TYPES : List (Int × MemoryType) :=
  [ (0, { name := "Bit (1 Bit)", bits := 1 }),
    (1, { name := "UByte (8 Bit)", bits := 8 }),
    (2, { name := "UWord (16 Bit)", bits := 16 }),
    (3, { name := "UDWord (32 Bit)", bits := 32 }) ]

/-- One record of the `parseMemory` result. -/
structure MemoryEntry where
  type : String
  location : Option Int
  bits : Int
deriving Repr, DecidableEq

/-- The JS idiom `parseInt(v) || null` used for memory property values:
NaN and 0 both become `null`. -/
def jsOrNull (o : Option Int) : Option Int :=
  match o with
  | none => none
  | some v => if v = 0 then none else some v

/-- `parseMemory(xmlString)` from `src/js/parser.js`: every `component`
element with `componentId` 2304 yields an entry; the type comes from
`MEMORY_TYPES.get(propertyMap.get(0))` with the `{unknown, 1 bit}` default,
the location from `propertyMap.get(1)`; entries are sorted ascending by
location (`null` coerces to 0 in the subtraction). -/
def parseMemory (root : XmlNode) : List MemoryEntry :=
  let memory := (getElementsByTagNameDoc root "component").filterMap (fun componentNode =>
    if jsParseIntAttr (getAttr componentNode "componentId") = some 2304 then
      let properties := parseProperties componentNode
      let propertyMap : List (Int × Option Int) :=
        properties.map (fun prop => (prop.id, jsOrNull (jsParseIntStr prop.value)))
      let memType := getProperty propertyMap 0
      let memLocation := getProperty propertyMap 1
      let type :=
        (match memType with
         | some v => MEMORY_TYPES.lookup v
         | none => none).getD { name := "unknown", bits := 1 }
      some { type := type.name, location := memLocation, bits := type.bits }
    else none)
  jsSort (fun a b => (a.location.getD 0) - (b.location.getD 0)) memory

/-- The scan loop of `findMasterModuleBusId`: in document order, a unit of
type 101/100, or of type 20/1/16/4 carrying a property with id 2 and value
"2", returns `parseInt(id) || -1`; otherwise the scan continues, and -1 is
returned when the list is exhausted. -/
def findMasterScan : List XmlNode → Int
  | [] => -1
  | unit :: rest =>
    let unitTypeId := jsOrInt (jsParseIntAttr (getAttr unit "unitTypeId")) 0
    if unitTypeId = 101 ∨ unitTypeId = 100 then
      jsOrInt (jsParseIntAttr (getAttr unit "id")) (-1)
    else if unitTypeId ∈ ([20, 1, 16, 4] : List Int) then
      if (parseProperties unit).any (fun prop => prop.id == 2 && prop.value == "2") then
        jsOrInt (jsParseIntAttr (getAttr unit "id")) (-1)
      else findMasterScan rest
    else findMasterScan rest

/-- `findMasterModuleBusId(xmlDoc)` from `src/js/parser.js`: scan the
elements matching `units > unit`. -/
def findMasterModuleBusId (root : XmlNode) : Int :=
  findMasterScan (queryChildrenOf root "units" "unit")

/-- Whether one unit element satisfies either master-module rule of
`findMasterModuleBusId` (mirrors the branch structure of the scan). -/
def isMasterUnit (unit : XmlNode) : Bool :=
  let unitTypeId := jsOrInt (jsParseIntAttr (getAttr unit "unitTypeId")) 0
  if unitTypeId = 101 ∨ unitTypeId = 100 then true
  else if unitTypeId ∈ ([20, 1, 16, 4] : List Int) then
    (parseProperties unit).any (fun prop => prop.id == 2 && prop.value == "2")
  else false

/-- A component record as sorted at the end of `parseComponents`:
`pgn` and `device` are numbers there (`device` falls back to the master
module bus id), `instance` may be `null`, and `id` (the display label) may
be JS `undefined` (e.g. a fluid name from a negative table index). -/
structure SortComponent where
  pgn : Int
  device : Int
  «instance» : Option Int
  id : Option String
deriving Repr, DecidableEq

/-- `String(x)` applied to a possibly-undefined label. -/
def jsStringOfId (o : Option String) : String :=
  match o with
  | none => "undefined"
  | some s => s

/-- The comparator of `parseComponents` in `src/js/parser.js`. `lc` stands
for the environment's `String.prototype.localeCompare`, which is
locale-defined; theorems below quantify over it. In the `instance` stage
the JS subtraction coerces `null` to 0, while the strict-inequality guard
distinguishes `null` from 0. -/
def componentCompare (lc : String → String → Int) (a b : SortComponent) : Int :=
  if a.pgn ≠ b.pgn then a.pgn - b.pgn
  else if a.device ≠ b.device then a.device - b.device
  else if a.«instance» ≠ b.«instance» then (a.«instance».getD 0) - (b.«instance».getD 0)
  else
    let sa := jsStringOfId a.id
    let sb := jsStringOfId b.id
    match jsParseIntStr sa, jsParseIntStr sb with
    | some av, some bv => av - bv
    | _, _ => lc sa sb

/-- A concrete stand-in used to instantiate `lc` in witnesses and
counterexamples: plain code-unit (lexicographic) string comparison. -/
def codeUnitCompare (a b : String) : Int :=
  if a < b then -1 else if b < a then 1 else 0

/-- The component ordering exactly as the specification words it:
ascending by PGN, then device id (absent treated as 0), then instance
(absent treated as 0), then label — numerically when both labels parse as
integers, else case-sensitive lexicographically. -/
def spec_componentKeyLt (a b : SortComponent) : Bool :=
  if a.pgn ≠ b.pgn then a.pgn < b.pgn
  else if a.device ≠ b.device then a.device < b.device
  else if a.«instance».getD 0 ≠ b.«instance».getD 0 then a.«instance».getD 0 < b.«instance».getD 0
  else
    match jsParseIntStr (jsStringOfId a.id), jsParseIntStr (jsStringOfId b.id) with
    | some av, some bv => av < bv
    | _, _ => jsStringOfId a.id < jsStringOfId b.id

theorem jsOrInt_ne_zero (o : Option Int) (d : Int) (hd : d ≠ 0) : jsOrInt o d ≠ 0 := by
  cases o with
  | none => simpa [jsOrInt] using hd
  | some v =>
    by_cases hv : v = 0
    · simp only [jsOrInt, hv, if_pos rfl]
      exact hd
    · simp only [jsOrInt, hv, if_neg hv]
      exact hv

theorem self_mem_allNodes (n : XmlNode) : n ∈ allNodes n := by
  cases n with
  | mk t a cs => simp [allNodes]

mutual
theorem mem_allNodes_trans : ∀ (r n m : XmlNode), n ∈ allNodes r → m ∈ allNodes n → m ∈ allNodes r
  | .mk t a cs, n, m, hn, hm => by
    simp only [allNodes] at hn ⊢
    rcases List.mem_cons.mp hn with h | h
    · rw [h] at hm
      simpa only [allNodes] using hm
    · exact List.mem_cons_of_mem _ (mem_allNodesF_trans cs n m h hm)
theorem mem_allNodesF_trans : ∀ (cs : XmlForest) (n m : XmlNode), n ∈ allNodesF cs → m ∈ allNodes n → m ∈ allNodesF cs
  | .nil, n, m, hn, _ => by simp [allNodesF] at hn
  | .cons c cs, n, m, hn, hm => by
    simp only [allNodesF, List.mem_append] at hn ⊢
    rcases hn with h | h
    · exact Or.inl (mem_allNodes_trans c n m h hm)
    · exact Or.inr (mem_allNodesF_trans cs n m h hm)
end

theorem mem_allNodesF_of_mem_toList : ∀ (cs : XmlForest) (c : XmlNode), c ∈ cs.toList → c ∈ allNodesF cs
  | .nil, c, h => by simp [XmlForest.toList] at h
  | .cons hd tl, c, h => by
    simp only [XmlForest.toList] at h
    simp only [allNodesF, List.mem_append]
    rcases List.mem_cons.mp h with h | h
    · exact Or.inl (h ▸ self_mem_allNodes c)
    · exact Or.inr (mem_allNodesF_of_mem_toList tl c h)

theorem child_mem_allNodes (n c : XmlNode) (h : c ∈ n.children.toList) : c ∈ allNodes n := by
  cases n with
  | mk t a cs =>
    simp only [XmlNode.children] at h
    simp only [allNodes]
    exact List.mem_cons_of_mem _ (mem_allNodesF_of_mem_toList cs c h)

theorem getProperty_eq_none_of_keys (m : List (Int × Option Int)) (k : Int)
    (h : ∀ e ∈ m, e.1 ≠ k) : getProperty m k = none := by
  have hf : m.reverse.find? (fun e => e.1 = k) = none := by
    rw [List.find?_eq_none]
    intro e he
    simpa using h e (List.mem_reverse.mp he)
  simp [getProperty, jsMapGet, hf]

theorem jsSort_of_chain {α : Type} (cmp : α → α → Int) (l : List α)
    (h : l.Chain' (fun x y => cmp x y ≤ 0)) : jsSort cmp l = l := by
  induction l with
  | nil => rfl
  | cons a t ih =>
    cases t with
    | nil => rfl
    | cons b t2 =>
      rw [List.chain'_cons] at h
      show jsInsert cmp a (jsSort cmp (b :: t2)) = a :: b :: t2
      rw [ih h.2]
      simp [jsInsert, h.1]

theorem jsInsert_perm {α : Type} (cmp : α → α → Int) (a : α) (l : List α) :
    (jsInsert cmp a l).Perm (a :: l) := by
  induction l with
  | nil => exact List.Perm.refl _
  | cons b t ih =>
    by_cases h : cmp a b ≤ 0
    · simp [jsInsert, h]
    · simp only [jsInsert, if_neg h]
      exact (ih.cons b).trans (List.Perm.swap a b t)

theorem jsSort_perm {α : Type} (cmp : α → α → Int) (l : List α) :
    (jsSort cmp l).Perm l := by
  induction l with
  | nil => exact List.Perm.refl _
  | cons a t ih => exact (jsInsert_perm cmp a (jsSort cmp t)).trans (ih.cons a)

theorem findMasterScan_cons (unit : XmlNode) (rest : List XmlNode) :
    findMasterScan (unit :: rest) =
      if isMasterUnit unit then jsOrInt (jsParseIntAttr (getAttr unit "id")) (-1)
      else findMasterScan rest := by
  simp only [findMasterScan, isMasterUnit]
  split_ifs <;> simp_all

/-- Claim C1 (as amended): for an input-side main code absent from
`INPUT_MAIN_SETTINGS`, or an output-side main code other than -1 absent
from `OUTPUT_MAIN_SETTINGS`, the decoded type is the string ":unknown:"
followed by the exact main code, and the subtype is ":unknown:" followed by
the exact sub code (the spec omits the leading colon of the sentinel). -/
theorem claim_C1_amended (mainIn subIn mainOut subOut : Int)
    (h1 : INPUT_MAIN_SETTINGS.lookup mainIn = none)
    (h2 : OUTPUT_MAIN_SETTINGS.lookup mainOut = none)
    (h3 : mainOut ≠ -1) :
    decodeInputSettings mainIn subIn =
      { type := ":unknown:" ++ toString mainIn, subtype := ":unknown:" ++ toString subIn } ∧
    decodeOutputSettings mainOut subOut =
      { type := ":unknown:" ++ toString mainOut, subtype := ":unknown:" ++ toString subOut } := by
  constructor
  · simp [decodeInputSettings, h1]
  · simp [decodeOutputSettings, h2, h3]

/-- Witness for C1: main code 2 is in neither table, and both decoders
produce the ":unknown:"-sentinel pairs carrying the exact codes. -/
theorem claim_C1_witness :
    INPUT_MAIN_SETTINGS.lookup 2 = none ∧ OUTPUT_MAIN_SETTINGS.lookup 2 = none ∧
    decodeInputSettings 2 3 =
      { type := ":unknown:" ++ toString (2 : Int), subtype := ":unknown:" ++ toString (3 : Int) } ∧
    decodeOutputSettings 2 3 =
      { type := ":unknown:" ++ toString (2 : Int), subtype := ":unknown:" ++ toString (3 : Int) } :=
  ⟨by decide, by decide,
   (claim_C1_amended 2 3 2 3 (by decide) (by decide) (by decide)).1,
   (claim_C1_amended 2 3 2 3 (by decide) (by decide) (by decide)).2⟩

/-- Counterexample to C1 as stated: for the unknown input main code 2 the
decoded type string is ":unknown:2", which does not begin with "unknown:"
(the sentinel carries a leading colon the claim omits). -/
theorem claim_C1_cex :
    INPUT_MAIN_SETTINGS.lookup 2 = none ∧
    decodeInputSettings 2 3 = { type := ":unknown:2", subtype := ":unknown:3" } ∧
    ¬ ("unknown:".data <+: (decodeInputSettings 2 3).type.data) ∧
    ¬ ("unknown:".data <+: (decodeInputSettings 2 3).subtype.data) := by decide

/-- Claim C2 (as amended): an out-main code of exactly -1 — including the
absent-attribute case, where `parseInt('') || -1` produces -1 — makes the
output side decode to the sentinel pair `{type: ":unknown:",
subtype: ":unknown:"}` with no code suffix, before any table lookup
(the spec omits the leading colon of the sentinel). -/
theorem claim_C2_amended (ch : Channel)
    (h : jsOrInt (jsParseIntStr ch.outMainChannelSettingId) (-1) = -1) :
    (decodeChannelSettings ch).output = { type := ":unknown:", subtype := ":unknown:" } ∧
    ∀ subId : Int, decodeOutputSettings (-1) subId = { type := ":unknown:", subtype := ":unknown:" } := by
  constructor
  · simp [decodeChannelSettings, h, decodeOutputSettings]
  · intro subId
    simp [decodeOutputSettings]

/-- Witness for C2: a channel whose out-main attribute is absent (stored as
the empty string by `parseChannels`) decodes its output side to the
":unknown:" sentinel pair. -/
theorem claim_C2_witness :
    jsOrInt (jsParseIntStr "") (-1) = -1 ∧
    (decodeChannelSettings
      { number := "1", name := "Ch", direction := "Input",
        inMainChannelSettingId := "", inChannelSettingId := "",
        outMainChannelSettingId := "", outChannelSettingId := "" }).output =
      { type := ":unknown:", subtype := ":unknown:" } :=
  ⟨by decide,
   (claim_C2_amended
     { number := "1", name := "Ch", direction := "Input",
       inMainChannelSettingId := "", inChannelSettingId := "",
       outMainChannelSettingId := "", outChannelSettingId := "" } (by decide)).1⟩

/-- Counterexample to C2 as stated: the -1 sentinel pair the code produces
is `{":unknown:", ":unknown:"}`, not the claimed `{"unknown:", "unknown:"}`. -/
theorem claim_C2_cex :
    decodeOutputSettings (-1) (-1) = { type := ":unknown:", subtype := ":unknown:" } ∧
    decodeOutputSettings (-1) (-1) ≠ { type := "unknown:", subtype := "unknown:" } := by decide

/-- Claim C3 (confirmed): a component-type code with no registered decoder
yields, for every property list, the neutral record with empty name, pgn 0,
absent instance, empty label, direction NONE and absent device. -/
theorem claim_C3 (componentId : Int) (properties : List ComponentProperty)
    (h : COMPONENT_DECODERS.lookup componentId = none) :
    decodeComponent componentId properties =
      { name := "", pgn := some 0, «instance» := none, id := some "",
        direction := .NONE, device := none } := by
  simp [decodeComponent, h, createEmptyResult]

/-- Witness for C3: type code 1290 is not registered, and decoding it over
a non-empty property list gives the neutral record. -/
theorem claim_C3_witness :
    COMPONENT_DECODERS.lookup 1290 = none ∧
    decodeComponent 1290 [{ id := 0, value := "7" }] =
      { name := "", pgn := some 0, «instance» := none, id := some "",
        direction := .NONE, device := none } :=
  ⟨rfl, claim_C3 1290 [{ id := 0, value := "7" }] rfl⟩

/-- The failing input of claim C4: a memory component (type 2304) whose
type property has id attribute "0" and value "1". -/
def c4Doc : XmlNode :=
  .mk "component" [("componentId", "2304")]
    (.cons (.mk "properties" []
      (.cons (.mk "property" [("id", "0"), ("value", "1")] .nil)
       (.cons (.mk "property" [("id", "1"), ("value", "7")] .nil) .nil))) .nil)

/-- Claim C4 (code bug): `parseMemory` is written to decode the memory type
from property 0 through the 4-entry `MEMORY_TYPES` table (type code 1 is
"UByte (8 Bit)", 8 bits), but `parseProperties` records an id attribute of
"0" as -1, so the `propertyMap.get(0)` lookup always misses and the entry
falls back to the `{unknown, 1 bit}` default. -/
theorem claim_C4_bug :
    parseProperties c4Doc = [{ id := -1, value := "1" }, { id := 1, value := "7" }] ∧
    parseMemory c4Doc = [{ type := "unknown", location := some 7, bits := 1 }] ∧
    MEMORY_TYPES.lookup 1 = some { name := "UByte (8 Bit)", bits := 8 } :=
  ⟨rfl, rfl, rfl⟩

/-- Claim C5 (as amended): for a well-formed document that has a `units`
container but contains no `unit` element anywhere, `parseUnits` throws the
"No units found" structural error while `validateEBP` reports the
"No units found in file" violation without throwing. (As originally
stated — zero `unit` *children* of the container — the claim fails, because
`validateEBP` counts `unit` elements document-wide; see the
counterexample.) -/
theorem claim_C5_amended (root c : XmlNode)
    (hc : querySelectorTag root "units" = some c)
    (hnone : getElementsByTagNameDoc root "unit" = []) :
    parseUnits (some root) = .error "No units found in the EBP file" ∧
    "No units found in file" ∈ (validateEBP (some root)).errors ∧
    (validateEBP (some root)).isValid = false := by
  have hcmem : c ∈ allNodes root := List.mem_of_find?_eq_some hc
  have hfilter : c.children.toList.filter (fun el => el.tag = "unit") = [] := by
    rw [List.filter_eq_nil_iff]
    intro u hu htag
    have humem : u ∈ allNodes root := mem_allNodes_trans root c u hcmem (child_mem_allNodes c u hu)
    have : u ∈ getElementsByTagNameDoc root "unit" := by
      rw [getElementsByTagNameDoc, List.mem_filter]
      exact ⟨humem, htag⟩
    rw [hnone] at this
    exact absurd this (List.not_mem_nil u)
  have hlen : (getElementsByTagNameDoc root "unit").length = 0 := by rw [hnone]; rfl
  have hun : (querySelectorTag root "units").isNone = false := by rw [hc]; rfl
  refine ⟨?_, ?_, ?_⟩
  · simp [parseUnits, hc, hfilter]
  · by_cases hp : (querySelectorTag root "project").isNone <;>
      simp [validateEBP, hp, hun, hlen]
  · by_cases hp : (querySelectorTag root "project").isNone <;>
      simp [validateEBP, hp, hun, hlen]

/-- Witness for C5: a document with an empty `units` container. Its units
query succeeds, it has no `unit` element, extraction fails with the
structural error, and validation lists the violation. -/
theorem claim_C5_witness :
    querySelectorTag (.mk "project" [] (.cons (.mk "units" [] .nil) .nil)) "units" =
      some (.mk "units" [] .nil) ∧
    getElementsByTagNameDoc (.mk "project" [] (.cons (.mk "units" [] .nil) .nil)) "unit" = [] ∧
    parseUnits (some (.mk "project" [] (.cons (.mk "units" [] .nil) .nil))) =
      .error "No units found in the EBP file" ∧
    "No units found in file" ∈
      (validateEBP (some (.mk "project" [] (.cons (.mk "units" [] .nil) .nil)))).errors :=
  ⟨rfl, rfl,
   (claim_C5_amended (.mk "project" [] (.cons (.mk "units" [] .nil) .nil))
     (.mk "units" [] .nil) rfl rfl).1,
   (claim_C5_amended (.mk "project" [] (.cons (.mk "units" [] .nil) .nil))
     (.mk "units" [] .nil) rfl rfl).2.1⟩

/-- The counterexample document for C5: the `units` container has zero
`unit` children, but a `unit` element sits nested one level deeper. -/
def c5CexDoc : XmlNode :=
  .mk "project" []
    (.cons (.mk "units" []
      (.cons (.mk "wrap" [] (.cons (.mk "unit" [] .nil) .nil)) .nil)) .nil)

/-- Counterexample to C5 as stated: on `c5CexDoc` the units container has
zero `unit` children, so `parseUnits` fails with the structural error —
yet `validateEBP` counts `unit` elements document-wide, finds the nested
one, and returns a fully valid result without the "no units found"
violation. -/
theorem claim_C5_cex :
    (querySelectorTag c5CexDoc "units").map
      (fun c => c.children.toList.filter (fun el => el.tag = "unit")) = some [] ∧
    parseUnits (some c5CexDoc) = .error "No units found in the EBP file" ∧
    validateEBP (some c5CexDoc) = { isValid := true, errors := [] } :=
  ⟨rfl, rfl, rfl⟩

/-- Claim C6 (as amended): the master-device scan runs over the
`units > unit` elements in document order and returns, at the first unit
satisfying rule (a) (type 101 or 100) or rule (b) (type in {20, 1, 16, 4}
with a property of id 2 and raw value "2"), the value
`parseInt(id attribute) || -1` — the unit's integer id, except that a
missing, unparseable, or zero id yields -1; if no unit matches, -1. -/
theorem claim_C6_amended :
    (∀ (pre post : List XmlNode) (unit : XmlNode),
        (∀ v ∈ pre, isMasterUnit v = false) → isMasterUnit unit = true →
        findMasterScan (pre ++ unit :: post) =
          jsOrInt (jsParseIntAttr (getAttr unit "id")) (-1)) ∧
    (∀ units : List XmlNode,
        (∀ v ∈ units, isMasterUnit v = false) → findMasterScan units = -1) ∧
    (∀ root : XmlNode,
        findMasterModuleBusId root = findMasterScan (queryChildrenOf root "units" "unit")) := by
  refine ⟨?_, ?_, fun root => rfl⟩
  · intro pre post unit hpre hu
    induction pre with
    | nil => simp [findMasterScan_cons, hu]
    | cons v t ih =>
      have hv := hpre v (List.mem_cons_self v t)
      rw [List.cons_append, findMasterScan_cons, if_neg (by simp [hv])]
      exact ih fun w hw => hpre w (List.mem_cons_of_mem v hw)
  · intro units h
    induction units with
    | nil => rfl
    | cons v t ih =>
      rw [findMasterScan_cons, if_neg (by simp [h v (List.mem_cons_self v t)])]
      exact ih fun w hw => h w (List.mem_cons_of_mem v hw)

/-- Witness for C6: a non-master unit (type 3) followed by a master unit of
type 100 with id "5"; the scan skips the first and returns 5. -/
theorem claim_C6_witness :
    isMasterUnit (.mk "unit" [("unitTypeId", "3")] .nil) = false ∧
    isMasterUnit (.mk "unit" [("unitTypeId", "100"), ("id", "5")] .nil) = true ∧
    findMasterScan [.mk "unit" [("unitTypeId", "3")] .nil,
                    .mk "unit" [("unitTypeId", "100"), ("id", "5")] .nil] =
      jsOrInt (jsParseIntAttr (getAttr (.mk "unit" [("unitTypeId", "100"), ("id", "5")] .nil) "id")) (-1) ∧
    jsOrInt (jsParseIntAttr (getAttr (.mk "unit" [("unitTypeId", "100"), ("id", "5")] .nil) "id")) (-1) = 5 ∧
    (∀ units : List XmlNode,
        (∀ v ∈ units, isMasterUnit v = false) → findMasterScan units = -1) :=
  ⟨rfl, rfl,
   claim_C6_amended.1 [.mk "unit" [("unitTypeId", "3")] .nil] []
     (.mk "unit" [("unitTypeId", "100"), ("id", "5")] .nil)
     (by intro v hv; rcases List.mem_singleton.mp hv with rfl; rfl) rfl,
   rfl, claim_C6_amended.2.1⟩

/-- The counterexample document for C6: a single master-family unit
(type 101) whose id attribute is "0". -/
def c6CexDoc : XmlNode :=
  .mk "project" []
    (.cons (.mk "units" []
      (.cons (.mk "unit" [("unitTypeId", "101"), ("id", "0")] .nil) .nil)) .nil)

/-- Counterexample to C6 as stated: the first (and only) scanned unit
matches rule (a) — its unit-type code parses to 101 — and its id attribute
parses to 0, yet the resolver returns -1, not the unit's id, because of
the `parseInt(id) || -1` fallback. -/
theorem claim_C6_cex :
    queryChildrenOf c6CexDoc "units" "unit" =
      [.mk "unit" [("unitTypeId", "101"), ("id", "0")] .nil] ∧
    jsOrInt (jsParseIntAttr (getAttr (.mk "unit" [("unitTypeId", "101"), ("id", "0")] .nil) "unitTypeId")) 0 = 101 ∧
    jsParseIntAttr (getAttr (.mk "unit" [("unitTypeId", "101"), ("id", "0")] .nil) "id") = some 0 ∧
    findMasterModuleBusId c6CexDoc = -1 ∧
    (-1 : Int) ≠ 0 :=
  ⟨rfl, rfl, rfl, rfl, by decide⟩

/-- Claim C7 (confirmed): component type 1283 with properties
{0:"2", 1:"1", 2:"0"} decodes to Fluid Level, PGN 127505, instance 2,
label "fresh water", direction TRANSMIT. -/
theorem claim_C7 :
    decodeComponent 1283
      [{ id := 0, value := "2" }, { id := 1, value := "1" }, { id := 2, value := "0" }] =
      { name := "Fluid Level", pgn := some 127505, «instance» := some 2,
        id := some "fresh water", direction := .TRANSMIT, device := none } ∧
    N2kDirection.name .TRANSMIT = "transmit" := by decide

theorem componentCompare_antisymm (lc : String → String → Int)
    (hlc : ∀ s t, lc s t = -(lc t s)) (a b : SortComponent) :
    componentCompare lc a b = -(componentCompare lc b a) := by
  simp only [componentCompare]
  by_cases h1 : a.pgn = b.pgn
  · rw [if_neg (show ¬(a.pgn ≠ b.pgn) by simp [h1]),
      if_neg (show ¬(b.pgn ≠ a.pgn) by simp [h1])]
    by_cases h2 : a.device = b.device
    · rw [if_neg (show ¬(a.device ≠ b.device) by simp [h2]),
        if_neg (show ¬(b.device ≠ a.device) by simp [h2])]
      by_cases h3 : a.«instance» = b.«instance»
      · rw [if_neg (show ¬(a.«instance» ≠ b.«instance») by simp [h3]),
          if_neg (show ¬(b.«instance» ≠ a.«instance») by simp [h3])]
        rcases hpa : jsParseIntStr (jsStringOfId a.id) with _ | av <;>
          rcases hpb : jsParseIntStr (jsStringOfId b.id) with _ | bv <;>
          simp only [hpa, hpb] <;>
          first
            | omega
            | exact hlc (jsStringOfId a.id) (jsStringOfId b.id)
      · rw [if_pos h3, if_pos (Ne.symm h3)]
        omega
    · rw [if_pos h2, if_pos (Ne.symm h2)]
      omega
  · rw [if_pos h1, if_pos (Ne.symm h1)]
    omega

/-- Claim C8 (as amended): sorting components with the comparator of
`parseComponents` is stable and permutes its input; re-sorting an
already-sorted sequence is a no-op; when the locale comparison is
sign-antisymmetric, so is the whole comparator; but when two entries agree
on PGN and device and exactly one of them lacks an instance while the
other has instance 0, the comparator returns 0 in both directions — the
null-vs-0 subtraction coerces to 0 after the strict-inequality guard fired
— so the label keys are never consulted and the entries simply keep their
relative order (this is the "except" clause the original claim misses). -/
theorem claim_C8_amended :
    (∀ (lc : String → String → Int) (l : List SortComponent),
        l.Chain' (fun x y => componentCompare lc x y ≤ 0) →
        jsSort (componentCompare lc) l = l) ∧
    (∀ (lc : String → String → Int) (l : List SortComponent),
        (jsSort (componentCompare lc) l).Perm l) ∧
    (∀ lc : String → String → Int, (∀ s t, lc s t = -(lc t s)) →
        ∀ a b : SortComponent, componentCompare lc a b = -(componentCompare lc b a)) ∧
    (∀ (lc : String → String → Int) (a b : SortComponent),
        a.pgn = b.pgn → a.device = b.device →
        a.«instance» = none → b.«instance» = some 0 →
        componentCompare lc a b = 0 ∧ componentCompare lc b a = 0) := by
  refine ⟨fun lc l h => jsSort_of_chain _ l h,
          fun lc l => jsSort_perm _ l,
          componentCompare_antisymm, ?_⟩
  intro lc a b h1 h2 h3 h4
  constructor
  · simp [componentCompare, h1, h2, h3, h4]
  · simp [componentCompare, h1, h2, h3, h4]

/-- Witness for C8: two concrete Switch-Control-shaped entries with equal
PGN and device, instances `null` and 0 and labels "2" and "1"; the
comparator ties in both directions, the pair is already "sorted" in either
order, and sorting only permutes. -/
theorem claim_C8_witness :
    jsSort (componentCompare codeUnitCompare)
      [{ pgn := 127502, device := 3, «instance» := none, id := some "2" },
       { pgn := 127502, device := 3, «instance» := some 0, id := some "1" }] =
      [{ pgn := 127502, device := 3, «instance» := none, id := some "2" },
       { pgn := 127502, device := 3, «instance» := some 0, id := some "1" }] ∧
    (jsSort (componentCompare codeUnitCompare)
      [{ pgn := 127502, device := 3, «instance» := none, id := some "2" },
       { pgn := 127502, device := 3, «instance» := some 0, id := some "1" }]).Perm
      [{ pgn := 127502, device := 3, «instance» := none, id := some "2" },
       { pgn := 127502, device := 3, «instance» := some 0, id := some "1" }] ∧
    componentCompare codeUnitCompare
      { pgn := 127502, device := 3, «instance» := none, id := some "2" }
      { pgn := 127502, device := 3, «instance» := some 0, id := some "1" } = 0 :=
  ⟨claim_C8_amended.1 codeUnitCompare _
     (by rw [List.chain'_cons]; exact ⟨by decide, by simp⟩),
   claim_C8_amended.2.1 codeUnitCompare _,
   (claim_C8_amended.2.2.2 codeUnitCompare
     { pgn := 127502, device := 3, «instance» := none, id := some "2" }
     { pgn := 127502, device := 3, «instance» := some 0, id := some "1" }
     rfl rfl rfl rfl).1⟩

/-- Counterexample to C8 as stated: by the specification's key order the
entry with instance 0 and numeric label 1 must precede the entry with
absent instance (treated as 0) and numeric label 2 — but the code's
comparator returns 0 at the instance stage (null !== 0 fires, then the
subtraction coerces null to 0), so the sort leaves the pair in the
opposite, claimed-descending order. -/
theorem claim_C8_cex :
    spec_componentKeyLt
      { pgn := 127502, device := 3, «instance» := some 0, id := some "1" }
      { pgn := 127502, device := 3, «instance» := none, id := some "2" } = true ∧
    jsSort (componentCompare codeUnitCompare)
      [{ pgn := 127502, device := 3, «instance» := none, id := some "2" },
       { pgn := 127502, device := 3, «instance» := some 0, id := some "1" }] =
      [{ pgn := 127502, device := 3, «instance» := none, id := some "2" },
       { pgn := 127502, device := 3, «instance» := some 0, id := some "1" }] := by decide

/-- Claim C9 (confirmed): `parseProperties` records any property whose id
attribute parses to 0 (such as the literal "0") or fails to parse with
id -1; consequently no extracted property ever has id 0, and both property
maps built from `parseProperties` output — the component decoder's
`createPropertyMap` and `parseMemory`'s value map — return an absent value
for key 0. -/
theorem claim_C9 :
    (∀ p : XmlNode,
        jsParseIntAttr (getAttr p "id") = none ∨ jsParseIntAttr (getAttr p "id") = some 0 →
        jsOrInt (jsParseIntAttr (getAttr p "id")) (-1) = -1) ∧
    (∀ (element : XmlNode) (q : ComponentProperty), q ∈ parseProperties element → q.id ≠ 0) ∧
    (∀ element : XmlNode, getProperty (createPropertyMap (parseProperties element)) 0 = none) ∧
    (∀ element : XmlNode,
        getProperty ((parseProperties element).map
          (fun prop => (prop.id, jsOrNull (jsParseIntStr prop.value)))) 0 = none) := by
  have hid : ∀ (element : XmlNode) (q : ComponentProperty), q ∈ parseProperties element → q.id ≠ 0 := by
    intro element q hq
    rw [parseProperties, List.mem_map] at hq
    obtain ⟨raw, _, hraw⟩ := hq
    rw [← hraw]
    exact jsOrInt_ne_zero _ _ (by decide)
  refine ⟨?_, hid, ?_, ?_⟩
  · intro p h
    rcases h with h | h <;> simp [jsOrInt, h]
  · intro element
    apply getProperty_eq_none_of_keys
    intro e he
    rw [createPropertyMap, List.mem_map] at he
    obtain ⟨q, hq, hqe⟩ := he
    rw [← hqe]
    exact hid element q hq
  · intro element
    apply getProperty_eq_none_of_keys
    intro e he
    rw [List.mem_map] at he
    obtain ⟨q, hq, hqe⟩ := he
    rw [← hqe]
    exact hid element q hq

/-- Witness for C9: a concrete property element with id attribute "0"
parses to id -1, and key 0 is absent from the decoder property map of a
component carrying it. -/
theorem claim_C9_witness :
    jsParseIntAttr (getAttr (.mk "property" [("id", "0"), ("value", "5")] .nil) "id") = some 0 ∧
    jsOrInt (jsParseIntAttr (getAttr (.mk "property" [("id", "0"), ("value", "5")] .nil) "id")) (-1) = -1 ∧
    parseProperties
      (.mk "component" [("componentId", "1283")]
        (.cons (.mk "properties" []
          (.cons (.mk "property" [("id", "0"), ("value", "5")] .nil) .nil)) .nil)) =
      [{ id := -1, value := "5" }] ∧
    getProperty (createPropertyMap (parseProperties
      (.mk "component" [("componentId", "1283")]
        (.cons (.mk "properties" []
          (.cons (.mk "property" [("id", "0"), ("value", "5")] .nil) .nil)) .nil)))) 0 = none :=
  ⟨rfl,
   claim_C9.1 (.mk "property" [("id", "0"), ("value", "5")] .nil) (Or.inr rfl),
   rfl,
   claim_C9.2.2.1
     (.mk "component" [("componentId", "1283")]
       (.cons (.mk "properties" []
         (.cons (.mk "property" [("id", "0"), ("value", "5")] .nil) .nil)) .nil))⟩

/-- Claim C10 (confirmed): an `outMainChannelSettingId` attribute whose
text parses to 0 is treated exactly like an absent attribute (stored as
"" by `parseChannels`): `parseInt(...) || -1` turns both into -1 and the
output side decodes to the no-output sentinel pair. -/
theorem claim_C10 (ch : Channel)
    (h : jsParseIntStr ch.outMainChannelSettingId = some 0) :
    jsOrInt (jsParseIntStr ch.outMainChannelSettingId) (-1) = -1 ∧
    decodeChannelSettings ch = decodeChannelSettings { ch with outMainChannelSettingId := "" } ∧
    (decodeChannelSettings ch).output = { type := ":unknown:", subtype := ":unknown:" } := by
  have hz : jsParseIntStr "" = none := by decide
  refine ⟨by simp [h, jsOrInt], ?_, ?_⟩
  · simp [decodeChannelSettings, h, hz, jsOrInt]
  · simp [decodeChannelSettings, h, jsOrInt, decodeOutputSettings]

/-- Witness for C10: out-main attribute text "0" parses to 0, and the
channel decodes identically to one with the attribute absent, with the
sentinel output pair. -/
theorem claim_C10_witness :
    jsParseIntStr "0" = some 0 ∧
    decodeChannelSettings
      { number := "1", name := "Ch", direction := "Output",
        inMainChannelSettingId := "1", inChannelSettingId := "",
        outMainChannelSettingId := "0", outChannelSettingId := "2" } =
    decodeChannelSettings
      { number := "1", name := "Ch", direction := "Output",
        inMainChannelSettingId := "1", inChannelSettingId := "",
        outMainChannelSettingId := "", outChannelSettingId := "2" } ∧
    (decodeChannelSettings
      { number := "1", name := "Ch", direction := "Output",
        inMainChannelSettingId := "1", inChannelSettingId := "",
        outMainChannelSettingId := "0", outChannelSettingId := "2" }).output =
      { type := ":unknown:", subtype := ":unknown:" } :=
  ⟨by decide,
   (claim_C10
     { number := "1", name := "Ch", direction := "Output",
       inMainChannelSettingId := "1", inChannelSettingId := "",
       outMainChannelSettingId := "0", outChannelSettingId := "2" } (by decide)).2.1,
   (claim_C10
     { number := "1", name := "Ch", direction := "Output",
       inMainChannelSettingId := "1", inChannelSettingId := "",
       outMainChannelSettingId := "0", outChannelSettingId := "2" } (by decide)).2.2⟩
